import Mathlib

/-!
Shallow embedding of the NMSBA soil-moisture system.

Sources embedded here:
- src/Pico-main.py    : sensor-side script (read_sensor, calibration buttons,
  pump_relay hysteresis loop, measure_moisture publish loop, main/finally).
- src/Pico_main_OOP.py: object-oriented rewrite (AutoPico.read_sensor,
  AutoPico.pump_relay single-threshold loop, AutoPico.run/finally).
- src/RPi-main.py     : receiver (App.on_message, App.record_to_csv,
  rate-limited persistence, relay mirror block).

Machine integers are modelled as Int.  Python `int(x / y)` on the operand
ranges that occur here (numerator magnitude at most 6 553 500 from u16
readings times 100, denominator magnitude at most 65 535) coincides exactly
with truncation-toward-zero of the exact rational quotient, because double
rounding of the quotient cannot cross an integer boundary at these
magnitudes (the nonzero distance of such a rational to an integer is at
least 1/65535, far above the unit of last place); it is therefore embedded
as Int.tdiv.  A Python ZeroDivisionError or TypeError is modelled as an
explicit error value.
-/

namespace NMSBA

/-- Runtime errors of the Python fragments that matter here:
ZeroDivisionError is modelled via Option, TypeError and a transport
connection failure via this error type. -/
inductive PyErr where
  | typeError
  | connectionError
deriving DecidableEq

/- ===================== Sensor side: calibration and read_sensor ===================== -/

/-- The mutable calibration globals of Pico-main.py (HI_ADC, LO_ADC), also
the fields self.HI_ADC / self.LO_ADC of AutoPico. -/
structure Calibration where
  HI_ADC : Int
  LO_ADC : Int
deriving DecidableEq

/-- Pico-main.py lines 15-16 / Pico_main_OOP.py lines 14-15: initial bounds. -/
def initial_calibration : Calibration := { HI_ADC := 48600, LO_ADC := 19400 }

/-- Pico-main.py lines 45-47 (identical in Pico_main_OOP.py lines 54-55):
`int(((sensor_high_value - raw) * 100) / (sensor_high_value - sensor_low_value))`,
the division-by-zero case excluded.  Truncation toward zero, see the header note. -/
def percent_value (raw sensor_high_value sensor_low_value : Int) : Int :=
  Int.tdiv ((sensor_high_value - raw) * 100) (sensor_high_value - sensor_low_value)

/-- Pico-main.py read_sensor with the raw ADC sample passed explicitly.
Python raises ZeroDivisionError when the two calibration values coincide;
that is the `none` case. -/
def read_sensor (raw sensor_high_value sensor_low_value : Int) : Option Int :=
  if sensor_high_value - sensor_low_value = 0 then none
  else some (percent_value raw sensor_high_value sensor_low_value)

/-- Pico-main.py lines 78-79: the dry-calibration button handler overwrites
HI_ADC with the current raw reading, unconditionally. -/
def calibrate_sensor_0 (reading : Int) (c : Calibration) : Calibration :=
  { c with HI_ADC := reading }

/-- Pico-main.py lines 88-89: the wet-calibration button handler overwrites
LO_ADC with the current raw reading, unconditionally. -/
def calibrate_sensor_100 (reading : Int) (c : Calibration) : Calibration :=
  { c with LO_ADC := reading }

/- ===================== Sensor side: actuator steps ===================== -/

/-- Pico-main.py line 97: `pump_lower_bound = 40`. -/
def pump_lower_bound : Int := 40

/-- Pico-main.py line 96: `pump_upper_bound = 70`. -/
def pump_upper_bound : Int := 70

/-- One iteration of the pump_relay loop body of Pico-main.py lines 113-116,
acting on the relay output value (true = relay.value(1)):
below the lower bound switch on, above the upper bound switch off,
otherwise no statement executes and the output is left as it is. -/
def pump_relay_step (lower upper moisture : Int) (relay : Bool) : Bool :=
  if moisture < lower then true
  else if moisture > upper then false
  else relay

/-- One iteration of the AutoPico.pump_relay loop body of
Pico_main_OOP.py lines 113-116: a single 30-percent threshold with an
unconditional else branch driving the relay low. -/
def AutoPico_pump_relay_step (moisture : Int) (_relay : Bool) : Bool :=
  if moisture < 30 then true else false

/-- Pico-main.py line 111: `await asyncio.sleep(1)` in the pump_relay loop. -/
def pump_relay_sleep_interval : Nat := 1

/-- Pico-main.py line 133: `await asyncio.sleep(1)` in the measure_moisture
(telemetry publish) loop. -/
def measure_moisture_sleep_interval : Nat := 1

/- ===================== Sensor side: shutdown path ===================== -/

/-- Observable sensor-side outputs touched by the finally block. -/
structure PicoState where
  led : Bool
  relay : Bool
  connected : Bool
deriving DecidableEq

/-- Pico-main.py lines 173-176 (and Pico_main_OOP.py lines 142-145): the
finally block runs client.disconnect(), led.off(), relay.value(0). -/
def shutdown_finally (st : PicoState) : PicoState :=
  { st with connected := false, led := false, relay := false }

/-- Pico-main.py lines 171-176 / AutoPico.run: `try: asyncio.run(main(...))
finally: ...`.  The body is any state transformer that may fail; the
finally block runs on its resulting state and the outcome of the body is
re-raised (surfaced) unchanged. -/
def run_with_cleanup (body : PicoState → Except PyErr Unit × PicoState)
    (st : PicoState) : Except PyErr Unit × PicoState :=
  let r := body st
  (r.1, shutdown_finally r.2)

/- ===================== Receiver side ===================== -/

/-- RPi-main.py line 52: `self.pump_lower_bound = 30`. -/
def pump_lower_bound_rpi : Int := 30

/-- RPi-main.py line 51: `self.pump_upper_bound = 60`. -/
def pump_upper_bound_rpi : Int := 60

/-- Python 3 semantics of `s < n` with s a str and n an int, as written on
RPi-main.py line 117 (`self.current_moisture < self.pump_lower_bound`,
where current_moisture was assigned the decoded payload string on
line 107): the comparison between str and int raises TypeError. -/
def pyLt_str_int (_s : String) (_n : Int) : Except PyErr Bool :=
  Except.error PyErr.typeError

/-- Python 3 semantics of `s >= n` with s a str and n an int
(RPi-main.py line 119): raises TypeError. -/
def pyGe_str_int (_s : String) (_n : Int) : Except PyErr Bool :=
  Except.error PyErr.typeError

/-- RPi-main.py lines 116-120: the relay block of on_message.
`if self.current_moisture < self.pump_lower_bound: relay.on()
 elif self.current_moisture >= self.pump_upper_bound: relay.off()`.
Returns the new relay output, or the error the comparison raises. -/
def rpi_relay_decision (current_moisture : String) (relay : Bool) :
    Except PyErr Bool :=
  match pyLt_str_int current_moisture pump_lower_bound_rpi with
  | Except.error e => Except.error e
  | Except.ok true => Except.ok true
  | Except.ok false =>
    match pyGe_str_int current_moisture pump_upper_bound_rpi with
    | Except.error e => Except.error e
    | Except.ok true => Except.ok false
    | Except.ok false => Except.ok relay

/-- Receiver state: App.current_moisture (also what update_readback shows),
App.csv_record_time, the rows appended to the CSV file, and the relay
output of the DigitalOutputDevice. -/
structure RxState where
  current_moisture : String
  csv_record_time : Int
  csv_rows : List (Int × String)
  relay : Bool
deriving DecidableEq

/-- RPi-main.py lines 42-52 and gpiozero DigitalOutputDevice default:
current_moisture = str(50), csv_record_time = 0, empty log, relay off. -/
def initial_RxState : RxState :=
  { current_moisture := "50", csv_record_time := 0, csv_rows := [], relay := false }

/-- RPi-main.py lines 74-83: record_to_csv appends one [current_time, data]
row to the file. -/
def record_to_csv (now_time : Int) (data : String)
    (rows : List (Int × String)) : List (Int × String) :=
  rows ++ [(now_time, data)]

/-- RPi-main.py lines 100-120, App.on_message, for one inbound message.
`payload` is msg.payload.decode("utf-8"); `now_time` is
int(datetime.now().strftime of the receipt instant (passed in explicitly).
Returns the state after the callback together with its outcome: the
mutations of lines 107-114 (display value, conditional CSV append) happen
first, then the relay block of lines 116-120 runs and, comparing a str
with an int, raises; state mutated before the raise stays mutated. -/
def on_message (st : RxState) (payload : String) (now_time : Int) :
    RxState × Except PyErr Unit :=
  let st1 : RxState := { st with current_moisture := payload }
  let st2 : RxState :=
    if now_time - st1.csv_record_time ≥ 1 then
      { st1 with
        csv_rows := record_to_csv now_time st1.current_moisture st1.csv_rows,
        csv_record_time := now_time }
    else st1
  match rpi_relay_decision st2.current_moisture st2.relay with
  | Except.error e => (st2, Except.error e)
  | Except.ok r => ({ st2 with relay := r }, Except.ok ())

/-- One delivered telemetry message: publishing device (from the topic),
the receipt minute-timestamp, and the decoded payload. -/
structure RxMsg where
  device : String
  minute : Int
  payload : String

/-- Delivery-order processing of a message sequence by the receiver: the
state mutations of each on_message callback are folded through (the
callback's own outcome, the TypeError of the relay block, does not undo
the mutations already applied). -/
def runReceiver (msgs : List RxMsg) (st : RxState) : RxState :=
  msgs.foldl (fun s m => (on_message s m.payload m.minute).1) st

/-- Modelled from the spec wording of claim C5 (a refinement comparison,
not the source): a per-device rate limiter that keeps a last-persisted
timestamp for each device separately and appends a reading iff that device
has no persisted record yet or at least one whole minute bucket elapsed
since its own last persisted record. -/
def perDevicePersistSpec : List RxMsg → List (String × Int) → List (Int × String)
  | [], _ => []
  | m :: rest, lastTimes =>
    let keep : Bool :=
      match lastTimes.lookup m.device with
      | none => true
      | some t => decide (m.minute - t ≥ 1)
    if keep then
      (m.minute, m.payload) :: perDevicePersistSpec rest ((m.device, m.minute) :: lastTimes)
    else
      perDevicePersistSpec rest lastTimes

/-- RPi-main.py lines 80 and 111: `datetime.now().strftime` with format
string year-month-day-hour-minute, read back with int(): the minute
timestamp is the decimal concatenation of the five two-digit fields. -/
def strftime_yymmddhhmm (yy mo dd hh mi : Nat) : Int :=
  (((((yy * 100 + mo) * 100 + dd) * 100 + hh) * 100 + mi : Nat) : Int)

/- ===================== Specification-side helpers ===================== -/

/-- Truncation toward zero of a rational, the rounding mode of Python
`int()` applied to a quotient. -/
def truncRat (q : ℚ) : Int :=
  if 0 ≤ q then ⌊q⌋ else ⌈q⌉

/-- The percentage formula as the spec words it for claim C6: exact
rational quotient ((dry_raw - raw) * 100) / (dry_raw - wet_raw), truncated
toward zero. -/
def percentSpec (raw dry_raw wet_raw : Int) : Int :=
  truncRat ((((dry_raw : ℚ) - raw) * 100) / ((dry_raw : ℚ) - wet_raw))

/-- Invariant of the receiver state maintained by message processing:
persisted-row timestamps are strictly increasing, and all of them are
bounded by the stored csv_record_time. -/
def RxInv (st : RxState) : Prop :=
  List.Pairwise (· < ·) (st.csv_rows.map Prod.fst) ∧
  ∀ t ∈ st.csv_rows.map Prod.fst, t ≤ st.csv_record_time

/- ===================== Helper lemmas ===================== -/

theorem truncRat_of_nonneg {q : ℚ} (h : 0 ≤ q) : truncRat q = ⌊q⌋ := by
  simp [truncRat, h]

theorem truncRat_neg (q : ℚ) : truncRat (-q) = -truncRat q := by
  rcases lt_trichotomy q 0 with h | h | h
  · have h1 : 0 ≤ -q := by linarith
    rw [truncRat, if_pos h1, truncRat, if_neg (not_le.mpr h), Int.floor_neg]
  · rw [h]
    simp [truncRat]
  · have h1 : ¬ 0 ≤ -q := by linarith
    rw [truncRat, if_neg h1, truncRat, if_pos (le_of_lt h), Int.ceil_neg]

theorem truncRat_mono {q r : ℚ} (h : q ≤ r) : truncRat q ≤ truncRat r := by
  unfold truncRat
  by_cases hq : 0 ≤ q
  · rw [if_pos hq, if_pos (le_trans hq h)]
    exact Int.floor_mono h
  · rw [if_neg hq]
    by_cases hr : 0 ≤ r
    · rw [if_pos hr]
      have hcq : ⌈q⌉ ≤ 0 := Int.ceil_le.mpr (by exact_mod_cast le_of_not_le hq)
      exact le_trans hcq (Int.floor_nonneg.mpr hr)
    · rw [if_neg hr]
      exact Int.ceil_mono h

theorem tdiv_natCast_eq_floor (a : Int) (d : Nat) (ha : 0 ≤ a) (hd : 0 < d) :
    a.tdiv (d : Int) = ⌊(a : ℚ) / (d : ℚ)⌋ := by
  rw [Int.tdiv_eq_ediv ha (by positivity), Rat.floor_intCast_div_natCast]

theorem tdiv_eq_truncRat_of_pos (a b : Int) (hb : 0 < b) :
    a.tdiv b = truncRat ((a : ℚ) / (b : ℚ)) := by
  obtain ⟨d, rfl⟩ : ∃ d : Nat, b = (d : Int) := ⟨b.toNat, (Int.toNat_of_nonneg hb.le).symm⟩
  have hd : 0 < d := by exact_mod_cast hb
  have hdq : (0 : ℚ) < (d : ℚ) := by exact_mod_cast hd
  have hcc : (((d : Int)) : ℚ) = (d : ℚ) := by push_cast; ring
  rw [hcc]
  rcases le_or_lt 0 a with ha | ha
  · rw [tdiv_natCast_eq_floor a d ha hd,
      truncRat_of_nonneg (div_nonneg (by exact_mod_cast ha) hdq.le)]
  · have ha' : 0 ≤ -a := by omega
    have h1 : a.tdiv (d : Int) = -((-a).tdiv (d : Int)) := by
      rw [Int.neg_tdiv, neg_neg]
    have h2 : ((a : ℚ) / (d : ℚ)) = -((((-a : Int)) : ℚ) / (d : ℚ)) := by
      push_cast
      ring
    rw [h1, tdiv_natCast_eq_floor (-a) d ha' hd, h2, truncRat_neg,
      truncRat_of_nonneg (div_nonneg (by exact_mod_cast ha') hdq.le)]

theorem tdiv_eq_truncRat (a b : Int) (hb : b ≠ 0) :
    a.tdiv b = truncRat ((a : ℚ) / (b : ℚ)) := by
  rcases hb.lt_or_lt with hneg | hpos
  · have h1 : a.tdiv b = -(a.tdiv (-b)) := by
      rw [Int.tdiv_neg, neg_neg]
    have h2 : ((a : ℚ) / (b : ℚ)) = -((a : ℚ) / (((-b : Int)) : ℚ)) := by
      push_cast
      ring
    rw [h1, tdiv_eq_truncRat_of_pos a (-b) (by omega), h2, truncRat_neg]
  · exact tdiv_eq_truncRat_of_pos a b hpos

theorem on_message_state_eq (st : RxState) (p : String) (t : Int) :
    (on_message st p t).1 =
      if t - st.csv_record_time ≥ 1 then
        { current_moisture := p, csv_record_time := t,
          csv_rows := st.csv_rows ++ [(t, p)], relay := st.relay }
      else
        { current_moisture := p, csv_record_time := st.csv_record_time,
          csv_rows := st.csv_rows, relay := st.relay } := by
  by_cases h : t - st.csv_record_time ≥ 1 <;>
    simp [on_message, rpi_relay_decision, pyLt_str_int, record_to_csv, h]

theorem on_message_preserves_RxInv {st : RxState} (h : RxInv st) (p : String) (t : Int) :
    RxInv (on_message st p t).1 := by
  obtain ⟨hpw, hbd⟩ := h
  rw [on_message_state_eq]
  by_cases hc : t - st.csv_record_time ≥ 1
  · rw [if_pos hc]
    constructor
    · simp only [List.map_append, List.map_cons, List.map_nil]
      rw [List.pairwise_append]
      refine ⟨hpw, List.pairwise_singleton _ _, ?_⟩
      intro a ha b hb
      simp only [List.mem_cons, List.not_mem_nil, or_false] at hb
      subst hb
      have := hbd a ha
      omega
    · intro x hx
      simp only [List.map_append, List.map_cons, List.map_nil, List.mem_append,
        List.mem_cons, List.not_mem_nil, or_false] at hx
      rcases hx with hx | hx
      · have := hbd x hx
        simp only []
        omega
      · subst hx
        simp
  · rw [if_neg hc]
    exact ⟨hpw, hbd⟩

theorem runReceiver_preserves_RxInv (msgs : List RxMsg) {st : RxState} (h : RxInv st) :
    RxInv (runReceiver msgs st) := by
  induction msgs generalizing st with
  | nil => exact h
  | cons m rest ih =>
    exact ih (on_message_preserves_RxInv h m.payload m.minute)

theorem runReceiver_append_single (msgs : List RxMsg) (m : RxMsg) (st : RxState) :
    runReceiver (msgs ++ [m]) st =
      (on_message (runReceiver msgs st) m.payload m.minute).1 := by
  unfold runReceiver
  rw [List.foldl_append]
  rfl

/- ===================== Claim theorems ===================== -/

/-- C1: the receiver relay block of on_message (RPi-main.py lines 116-120)
does not equal the sensor-side hysteresis step: the payload is kept as a
string, so the very first comparison against the integer bound raises
TypeError for every payload, while the Actuator step (pump_relay in
Pico-main.py) makes a decision; here at percentage 20 with state Off the
Actuator switches On and the receiver errors. -/
theorem relay_mirror_diverges_on_string_payload :
    rpi_relay_decision "20" false = Except.error PyErr.typeError ∧
    pump_relay_step pump_lower_bound_rpi pump_upper_bound_rpi 20 false = true := by
  exact ⟨rfl, by decide⟩

/-- C2: a payload that does not parse as a decimal integer is not dropped
cleanly: on_message assigns it to current_moisture (so the display shows
it), appends it to the CSV when the minute gate is open, and then raises
TypeError at the relay comparison. -/
theorem malformed_payload_mutates_state_and_errors :
    on_message initial_RxState "abc" 2510120930 =
      ({ current_moisture := "abc", csv_record_time := 2510120930,
         csv_rows := [(2510120930, "abc")], relay := false },
       Except.error PyErr.typeError) := rfl

/-- C3 counterexample: with the Pico-main bounds 40 < 70 and the reading 50
strictly inside the dead band, the hysteresis step of Pico-main.py holds an
On relay, but the single-threshold step of Pico_main_OOP.py drives the
relay Off: its evaluation does change the relay output on an in-band
reading, so the claimed property fails for that implementation. -/
theorem oop_step_changes_relay_in_dead_band :
    pump_lower_bound < 50 ∧ 50 < pump_upper_bound ∧
    pump_relay_step pump_lower_bound pump_upper_bound 50 true = true ∧
    AutoPico_pump_relay_step 50 true = false := by decide

/-- C3 amended: for the hysteresis step of Pico-main.py, any sequence of
readings strictly inside (lower, upper) leaves the relay output unchanged,
and repeated evaluation at the same reading never re-toggles the output;
the single-threshold step of Pico_main_OOP.py only satisfies the
idempotence part. -/
theorem hysteresis_hold_and_idempotence :
    (∀ (lower upper : Int) (s : Bool) (ms : List Int), lower < upper →
      (∀ m ∈ ms, lower < m ∧ m < upper) →
      ms.foldl (fun r m => pump_relay_step lower upper m r) s = s) ∧
    (∀ (lower upper m : Int) (s : Bool),
      pump_relay_step lower upper m (pump_relay_step lower upper m s) =
        pump_relay_step lower upper m s) ∧
    (∀ (m : Int) (s : Bool),
      AutoPico_pump_relay_step m (AutoPico_pump_relay_step m s) =
        AutoPico_pump_relay_step m s) := by
  refine ⟨?_, ?_, ?_⟩
  · intro lower upper s ms hlt hmem
    induction ms generalizing s with
    | nil => rfl
    | cons m rest ih =>
      have hm := hmem m (by simp)
      have hstep : pump_relay_step lower upper m s = s := by
        unfold pump_relay_step
        rw [if_neg (by omega), if_neg (by omega)]
      simp only [List.foldl_cons, hstep]
      exact ih s (fun x hx => hmem x (List.mem_cons_of_mem m hx))
  · intro lower upper m s
    unfold pump_relay_step
    by_cases h1 : m < lower
    · simp [h1]
    · by_cases h2 : m > upper <;> simp [h1, h2]
  · intro m s
    rfl

theorem hysteresis_hold_and_idempotence_witness :
    [(45 : Int), 50, 69].foldl (fun r m => pump_relay_step 40 70 m r) true = true :=
  hysteresis_hold_and_idempotence.1 40 70 true [45, 50, 69] (by decide) (by decide)

/-- C4: whatever the loop body does, if it ends in an error then the
try/finally of Pico-main.py lines 171-176 (same shape in AutoPico.run)
leaves the relay and LED driven low and re-raises the same error. -/
theorem failcleanup_forces_relay_off :
    ∀ (body : PicoState → Except PyErr Unit × PicoState) (st : PicoState) (e : PyErr),
      (body st).1 = Except.error e →
      (run_with_cleanup body st).1 = Except.error e ∧
      (run_with_cleanup body st).2.relay = false ∧
      (run_with_cleanup body st).2.led = false := by
  intro body st e h
  refine ⟨?_, rfl, rfl⟩
  simpa [run_with_cleanup] using h

theorem failcleanup_forces_relay_off_witness :
    (run_with_cleanup
        (fun s => (Except.error PyErr.connectionError, { s with relay := true }))
        { led := true, relay := true, connected := true }).1 =
      Except.error PyErr.connectionError ∧
    (run_with_cleanup
        (fun s => (Except.error PyErr.connectionError, { s with relay := true }))
        { led := true, relay := true, connected := true }).2.relay = false ∧
    (run_with_cleanup
        (fun s => (Except.error PyErr.connectionError, { s with relay := true }))
        { led := true, relay := true, connected := true }).2.led = false :=
  failcleanup_forces_relay_off _ _ PyErr.connectionError rfl

/-- C5 counterexample: two devices, each sending its first-ever message,
in the same minute bucket: a per-device limiter (as the claim words it)
persists both; the code's single shared csv_record_time persists only the
first. -/
theorem persistence_not_per_device :
    (runReceiver [{ device := "picoA", minute := 100001, payload := "62" },
                  { device := "picoB", minute := 100001, payload := "55" }]
        initial_RxState).csv_rows = [(100001, "62")] ∧
    perDevicePersistSpec
        [{ device := "picoA", minute := 100001, payload := "62" },
         { device := "picoB", minute := 100001, payload := "55" }] [] =
      [(100001, "62"), (100001, "55")] := ⟨rfl, rfl⟩

/-- C5 amended: receiver persistence is rate-limited globally, not per
device: one shared csv_record_time gates all devices, a reading is
appended iff its minute timestamp exceeds the last persisted timestamp
(of any device) by at least 1, persisted timestamps strictly increase (so
any minute bucket yields at most one row overall, in particular two
messages of one device in one bucket yield one row), and the display is
still updated by every message. -/
theorem persistence_global_rate_limit :
    (∀ msgs : List RxMsg,
      List.Pairwise (· < ·)
        ((runReceiver msgs initial_RxState).csv_rows.map Prod.fst)) ∧
    (∀ (msgs : List RxMsg) (m : RxMsg),
      (runReceiver (msgs ++ [m]) initial_RxState).current_moisture = m.payload) ∧
    (∀ (msgs : List RxMsg) (m : RxMsg),
      (runReceiver (msgs ++ [m]) initial_RxState).csv_rows =
        if m.minute - (runReceiver msgs initial_RxState).csv_record_time ≥ 1 then
          (runReceiver msgs initial_RxState).csv_rows ++ [(m.minute, m.payload)]
        else
          (runReceiver msgs initial_RxState).csv_rows) := by
  have hinit : RxInv initial_RxState := by
    constructor
    · simp [initial_RxState]
    · simp [initial_RxState]
  refine ⟨?_, ?_, ?_⟩
  · intro msgs
    exact (runReceiver_preserves_RxInv msgs hinit).1
  · intro msgs m
    rw [runReceiver_append_single, on_message_state_eq]
    by_cases h : m.minute - (runReceiver msgs initial_RxState).csv_record_time ≥ 1 <;>
      simp [h]
  · intro msgs m
    rw [runReceiver_append_single, on_message_state_eq]
    by_cases h : m.minute - (runReceiver msgs initial_RxState).csv_record_time ≥ 1 <;>
      simp [h]

/-- C6: read_sensor computes exactly the truncation toward zero of the
rational ((dry_raw - raw) * 100) / (dry_raw - wet_raw), with no clamping,
and on the documented example 48600 / 19400 / 34000 it returns 50. -/
theorem read_sensor_is_truncated_division :
    (∀ raw dry_raw wet_raw : Int, dry_raw ≠ wet_raw →
      read_sensor raw dry_raw wet_raw = some (percentSpec raw dry_raw wet_raw)) ∧
    read_sensor 34000 48600 19400 = some 50 := by
  constructor
  · intro raw dry wet h
    have hsub : dry - wet ≠ 0 := sub_ne_zero.mpr h
    rw [read_sensor, if_neg hsub, percent_value, percentSpec,
      tdiv_eq_truncRat _ _ hsub]
    have hc : ((((dry - raw) * 100 : Int)) : ℚ) / (((dry - wet : Int)) : ℚ) =
        (((dry : ℚ) - raw) * 100) / ((dry : ℚ) - wet) := by
      push_cast
      ring
    rw [hc]
  · decide

theorem read_sensor_is_truncated_division_witness :
    read_sensor 34000 48600 19400 = some (percentSpec 34000 48600 19400) :=
  read_sensor_is_truncated_division.1 34000 48600 19400 (by decide)

/-- C7: with dry_raw above wet_raw, the computed percentage is
monotonically non-increasing in the raw reading, on raw readings up to
dry_raw. -/
theorem percent_monotone_nonincreasing :
    ∀ dry_raw wet_raw raw raw' : Int, wet_raw < dry_raw → raw ≤ raw' →
      raw' ≤ dry_raw →
      percent_value raw' dry_raw wet_raw ≤ percent_value raw dry_raw wet_raw := by
  intro dry wet raw raw' hlt hle _hle2
  have hsub : dry - wet ≠ 0 := by omega
  rw [percent_value, percent_value, tdiv_eq_truncRat _ _ hsub,
    tdiv_eq_truncRat _ _ hsub]
  apply truncRat_mono
  have hpos : (0 : ℚ) < (((dry - wet : Int)) : ℚ) := by
    exact_mod_cast (by omega : (0 : Int) < dry - wet)
  have hnum : ((((dry - raw') * 100 : Int)) : ℚ) ≤ (((dry - raw) * 100 : Int) : ℚ) := by
    exact_mod_cast (by omega : ((dry - raw') * 100 : Int) ≤ (dry - raw) * 100)
  exact div_le_div_of_nonneg_right hnum hpos.le

theorem percent_monotone_nonincreasing_witness :
    percent_value 34100 48600 19400 ≤ percent_value 34000 48600 19400 :=
  percent_monotone_nonincreasing 48600 19400 34000 34100 (by decide) (by decide)
    (by decide)

/-- C8 counterexample: pressing the dry-calibration button while the sensor
reads 19400 (the current wet bound) makes HI_ADC equal LO_ADC, so the
invariant is not preserved and read_sensor then hits the zero divisor. -/
theorem calibration_can_break_bounds_invariant :
    (calibrate_sensor_0 19400 initial_calibration).HI_ADC =
      (calibrate_sensor_0 19400 initial_calibration).LO_ADC ∧
    read_sensor 30000 (calibrate_sensor_0 19400 initial_calibration).HI_ADC
      (calibrate_sensor_0 19400 initial_calibration).LO_ADC = none := by decide

/-- C8 amended: the calibration handlers overwrite one bound with the raw
reading unconditionally, so the invariant dry_raw different from wet_raw
survives a calibration event iff the captured reading differs from the
opposite bound; when the two bounds coincide, read_sensor fails with the
division error instead of returning a percentage. -/
theorem calibration_invariant_iff_fresh_reading :
    (∀ (r : Int) (c : Calibration),
      (calibrate_sensor_0 r c).HI_ADC ≠ (calibrate_sensor_0 r c).LO_ADC ↔
        r ≠ c.LO_ADC) ∧
    (∀ (r : Int) (c : Calibration),
      (calibrate_sensor_100 r c).HI_ADC ≠ (calibrate_sensor_100 r c).LO_ADC ↔
        c.HI_ADC ≠ r) ∧
    (∀ raw v : Int, read_sensor raw v v = none) := by
  refine ⟨fun r c => Iff.rfl, fun r c => Iff.rfl, fun raw v => ?_⟩
  simp [read_sensor]

/-- C9: both sensor-side loops sleep 1 time unit per iteration, so the
telemetry publish tick is not on a strictly longer period than the
actuator evaluation tick (the docstring target of 30 is not what the code
does). -/
theorem publish_tick_not_slower_than_eval_tick :
    measure_moisture_sleep_interval = 1 ∧ pump_relay_sleep_interval = 1 ∧
    ¬ pump_relay_sleep_interval < measure_moisture_sleep_interval := by decide

/-- C10: from the freshly initialized receiver state (csv_record_time = 0),
the first inbound message is persisted, because any formatted
yymmddhhmm timestamp with a valid month field is at least 1. -/
theorem first_message_always_persisted :
    ∀ (yy mo dd hh mi : Nat) (payload : String), 1 ≤ mo →
      (on_message initial_RxState payload
          (strftime_yymmddhhmm yy mo dd hh mi)).1.csv_rows =
        [(strftime_yymmddhhmm yy mo dd hh mi, payload)] := by
  intro yy mo dd hh mi payload hmo
  have h1 : 1 ≤ strftime_yymmddhhmm yy mo dd hh mi := by
    unfold strftime_yymmddhhmm
    have hn : 1 ≤ ((((yy * 100 + mo) * 100 + dd) * 100 + hh) * 100 + mi) := by
      omega
    exact_mod_cast hn
  rw [on_message_state_eq, if_pos (by simp [initial_RxState]; omega)]
  simp [initial_RxState]

theorem first_message_always_persisted_witness :
    (on_message initial_RxState "62" (strftime_yymmddhhmm 25 10 12 9 30)).1.csv_rows =
      [(strftime_yymmddhhmm 25 10 12 9 30, "62")] :=
  first_message_always_persisted 25 10 12 9 30 "62" (by decide)

end NMSBA
